import Mathlib

/-!
Verification of the consensus control core (`src/yb/consensus/consensus.cc`):
the term-bound replication round lifecycle, the leader-readiness state
machine, OpId query dispatch and the fault-hook surface.

The embedding is shallow: each C++ function of the source file becomes an
executable Lean definition over explicit value types.  Statuses are modelled
as an error code plus message; callback invocation is modelled by the list of
argument tuples delivered to the registered callback, so that "fires once /
fires twice" is observable; the pure-virtual collaborator queries
(`GetLastReceivedOpId`, `GetLastCommittedOpId`, `GetLeaderState`) are fields
of the `Consensus` record.
-/

/-- Error codes of `yb::Status` used by this translation unit. -/
inductive StatusCode where
  | Aborted
  | IllegalState
  | LeaderNotReadyToServe
  | LeaderHasNoLease
  | InvalidArgument
  deriving DecidableEq, Repr

/-- Outcome of a fallible operation: `Status::OK()` or an error carrying a
code and a message.  The `STATUS(code, msg, extra)` macro joins `msg` and
`extra` with a separator into the final message string. -/
inductive Status where
  | ok
  | error (code : StatusCode) (msg : String)
  deriving DecidableEq, Repr

/-- An OpId: a (term, index) pair identifying a position in the replicated
log (`yb::OpId`). -/
structure OpId where
  term : Int
  index : Int
  deriving DecidableEq, Repr

/-- Modelled from the spec: `yb::OpId::kUnknownTerm`, the "unknown term"
sentinel, lives in `yb/util/opid.h` which is not under `src/`; the spec calls
it "the unknown-term sentinel" returned when the term is not applicable.  Its
concrete value (-1) only matters for evaluation at witnesses. -/
def OpId.kUnknownTerm : Int := -1

/-- Modelled from the spec: `MinimumOpId()` lives in
`yb/consensus/opid_util.cc` which is not under `src/`; the spec says the
`Minimum` sentinel compares less than any real OpId under the
term-then-index order, so it is the pair (0, 0). -/
def MinimumOpId : OpId := ⟨0, 0⟩

/-- `ConsensusBootstrapInfo`: last received and last committed OpId known at
startup. -/
structure ConsensusBootstrapInfo where
  last_id : OpId
  last_committed_id : OpId
  deriving DecidableEq, Repr

/-- The default constructor `ConsensusBootstrapInfo::ConsensusBootstrapInfo()`:
initializes both fields to `MinimumOpId()`. -/
def ConsensusBootstrapInfo.init : ConsensusBootstrapInfo :=
  { last_id := MinimumOpId, last_committed_id := MinimumOpId }

/-- The opaque proposal payload record (`ReplicateMsg`).  Its contents are
irrelevant to this core; a nullable `ReplicateMsgPtr` is `Option ReplicateMsg`. -/
structure ReplicateMsg where
  payload : Nat
  deriving DecidableEq, Repr

/-- One delivery of arguments to a round's completion callback: the status,
the leader term at the moment of notification, and the applied op ids. -/
structure CallbackCall where
  status : Status
  leader_term : Int
  applied_op_ids : List OpId
  deriving DecidableEq, Repr

/-- `ConsensusRound` state: the bound term (or the unbound sentinel), the
proposal payload handle, and whether a completion callback was registered
(`replicated_cb_ != nullptr`).  The non-owning back-reference to the facade
is used only for term validation and carries no state of its own. -/
structure ConsensusRound where
  bound_term : Int
  replicate_msg : Option ReplicateMsg
  has_replicated_cb : Bool
  deriving DecidableEq, Repr

/-- Modelled from the spec: `ConsensusRound::kUnboundTerm` is declared in
`yb/consensus/consensus.h`, not under `src/`; the spec's "Unbound" sentinel
meaning "no binding — usable in term".  Its concrete value (-1) only
matters for evaluation at witnesses. -/
def ConsensusRound.kUnboundTerm : Int := -1

/-- The constructor taking (consensus, replicate_msg, replicated_cb): stores
the fields and performs NO null check on the payload.  The error branch of
the result is a debug-build `DCHECK` failure; this constructor never takes
it. -/
def ConsensusRound.ctorWithCallback (replicate_msg : Option ReplicateMsg)
    (has_cb : Bool) : Except String ConsensusRound :=
  Except.ok { bound_term := ConsensusRound.kUnboundTerm,
              replicate_msg := replicate_msg,
              has_replicated_cb := has_cb }

/-- The constructor taking (consensus, replicate_msg) only: stores the fields
and runs `DCHECK_NOTNULL(replicate_msg_.get())`, fatal in debug builds when
the payload is null. -/
def ConsensusRound.ctorNoCallback (replicate_msg : Option ReplicateMsg) :
    Except String ConsensusRound :=
  match replicate_msg with
  | none => Except.error "DCHECK failed: replicate_msg_.get() non-null"
  | some m => Except.ok { bound_term := ConsensusRound.kUnboundTerm,
                          replicate_msg := some m,
                          has_replicated_cb := false }

/-- `ConsensusRound::NotifyReplicationFinished(status, leader_term,
applied_op_ids)`: if no callback is registered, return at once; otherwise
invoke the callback with exactly the three arguments.  The result is the
list of argument tuples delivered to the callback during this one call. -/
def ConsensusRound.NotifyReplicationFinished (r : ConsensusRound)
    (status : Status) (leader_term : Int) (applied_op_ids : List OpId) :
    List CallbackCall :=
  if r.has_replicated_cb = false then []
  else [{ status := status, leader_term := leader_term,
          applied_op_ids := applied_op_ids }]

/-- All callback deliveries produced by a sequence of calls to
`NotifyReplicationFinished` on the same round (the round object itself holds
no completion flag, so calls are independent). -/
def ConsensusRound.notifyMany (r : ConsensusRound) :
    List CallbackCall → List CallbackCall
  | [] => []
  | c :: rest =>
      r.NotifyReplicationFinished c.status c.leader_term c.applied_op_ids
        ++ r.notifyMany rest

/-- `ConsensusRound::CheckBoundTerm(current_term)`: fails with `Aborted` when
the round is bound (not the unbound sentinel) to a term different from
`current_term`; message built by `Substitute("Operation submitted in term $0
cannot be replicated in term $1", bound_term_, current_term)`. -/
def ConsensusRound.CheckBoundTerm (r : ConsensusRound) (current_term : Int) :
    Status :=
  if r.bound_term ≠ ConsensusRound.kUnboundTerm ∧
     r.bound_term ≠ current_term then
    Status.error StatusCode.Aborted
      ("Operation submitted in term " ++ toString r.bound_term
        ++ " cannot be replicated in term " ++ toString current_term)
  else
    Status.ok

/-- The five-value leader readiness ladder (`yb::consensus::LeaderStatus`). -/
inductive LeaderStatus where
  | NOT_LEADER
  | LEADER_BUT_NO_OP_NOT_COMMITTED
  | LEADER_BUT_OLD_LEADER_MAY_HAVE_LEASE
  | LEADER_BUT_NO_MAJORITY_REPLICATED_LEASE
  | LEADER_AND_READY
  deriving DecidableEq, Repr

/-- `LeaderState`: transient per-query value of status, term and the
remaining old-leader lease (a duration, modelled as an integer amount). -/
structure LeaderState where
  status : LeaderStatus
  term : Int
  remaining_old_leader_lease : Int
  deriving DecidableEq, Repr

/-- `LeaderState::MakeNotReadyLeader(status_)`: sets the status and forces
the term to the unknown-term sentinel. -/
def LeaderState.MakeNotReadyLeader (self : LeaderState)
    (status_ : LeaderStatus) : LeaderState :=
  { self with status := status_, term := OpId.kUnknownTerm }

/-- `LeaderState::CreateStatus()`: the pure, exhaustive mapping from
`LeaderStatus` to an outcome.  The `FATAL_INVALID_ENUM_VALUE` fallthrough of
the source is unreachable because the switch covers the whole enumeration;
here the match is total over the closed inductive type, which is the same
exhaustiveness guarantee. -/
def LeaderState.CreateStatus (s : LeaderState) : Status :=
  match s.status with
  | LeaderStatus.NOT_LEADER =>
      Status.error StatusCode.IllegalState "Not the leader"
  | LeaderStatus.LEADER_BUT_NO_OP_NOT_COMMITTED =>
      Status.error StatusCode.LeaderNotReadyToServe
        "Leader not yet replicated NoOp to be ready to serve requests"
  | LeaderStatus.LEADER_BUT_OLD_LEADER_MAY_HAVE_LEASE =>
      Status.error StatusCode.LeaderNotReadyToServe
        ("Previous leader's lease might still be active ("
          ++ toString s.remaining_old_leader_lease ++ " remaining).")
  | LeaderStatus.LEADER_BUT_NO_MAJORITY_REPLICATED_LEASE =>
      Status.error StatusCode.LeaderHasNoLease
        "This leader has not yet acquired a lease."
  | LeaderStatus.LEADER_AND_READY => Status.ok

/-- The closed OpId-kind enumeration (`yb::OpIdType` from the protobuf). -/
inductive OpIdType where
  | RECEIVED_OPID
  | COMMITTED_OPID
  | UNKNOWN_OPID_TYPE
  deriving DecidableEq, Repr

/-- `OpIdType_Name`: the protobuf-generated name of an `OpIdType` value. -/
def OpIdType_Name : OpIdType → String
  | OpIdType.RECEIVED_OPID => "RECEIVED_OPID"
  | OpIdType.COMMITTED_OPID => "COMMITTED_OPID"
  | OpIdType.UNKNOWN_OPID_TYPE => "UNKNOWN_OPID_TYPE"

/-- The ten lifecycle hook points (`Consensus::HookPoint`). -/
inductive HookPoint where
  | PRE_START
  | POST_START
  | PRE_CONFIG_CHANGE
  | POST_CONFIG_CHANGE
  | PRE_REPLICATE
  | POST_REPLICATE
  | PRE_UPDATE
  | POST_UPDATE
  | PRE_SHUTDOWN
  | POST_SHUTDOWN
  deriving DecidableEq, Repr

/-- A fault-hook object: ten lifecycle callbacks, each modelled by the
`Status` it returns when invoked. -/
structure ConsensusFaultHooks where
  PreStart : Status
  PostStart : Status
  PreConfigChange : Status
  PostConfigChange : Status
  PreReplicate : Status
  PostReplicate : Status
  PreUpdate : Status
  PostUpdate : Status
  PreShutdown : Status
  PostShutdown : Status
  deriving DecidableEq, Repr

/-- The `Consensus` facade.  The pure-virtual collaborator queries
(`GetLastReceivedOpId`, `GetLastCommittedOpId`, `GetLeaderState`) are fields
supplied by the concrete implementation; `fault_hooks_` is the nullable
shared pointer to the installed hook object. -/
structure Consensus where
  GetLastReceivedOpId : OpId
  GetLastCommittedOpId : OpId
  GetLeaderState : Bool → LeaderState
  fault_hooks : Option ConsensusFaultHooks

/-- `Consensus::GetLeaderStatus(allow_stale)`: the status component of the
leader state. -/
def Consensus.GetLeaderStatus (c : Consensus) (allow_stale : Bool) :
    LeaderStatus :=
  (c.GetLeaderState allow_stale).status

/-- `Consensus::LeaderTerm()`: the term of `GetLeaderState()` (the
`allow_stale` parameter defaults to false, a fresh computation). -/
def Consensus.LeaderTerm (c : Consensus) : Int :=
  (c.GetLeaderState false).term

/-- `Consensus::NewRound(replicate_msg, replicated_cb)`: allocates a round
through the (consensus, replicate_msg, replicated_cb) constructor. -/
def Consensus.NewRound (_c : Consensus) (replicate_msg : Option ReplicateMsg)
    (has_cb : Bool) : Except String ConsensusRound :=
  ConsensusRound.ctorWithCallback replicate_msg has_cb

/-- `Consensus::SetFaultHooks(hooks)`: replaces the installed hook pointer. -/
def Consensus.SetFaultHooks (c : Consensus)
    (hooks : Option ConsensusFaultHooks) : Consensus :=
  { c with fault_hooks := hooks }

/-- `Consensus::GetFaultHooks()`: returns the installed hook pointer. -/
def Consensus.GetFaultHooks (c : Consensus) : Option ConsensusFaultHooks :=
  c.fault_hooks

/-- `Consensus::ExecuteHook(point)`: with no hook object installed, OK; with
one installed, dispatch to the callback matching the point and return its
result.  The `default: LOG(FATAL)` branch of the source switch is
unreachable over the closed enumeration. -/
def Consensus.ExecuteHook (c : Consensus) (point : HookPoint) : Status :=
  match c.fault_hooks with
  | none => Status.ok
  | some h =>
    match point with
    | HookPoint.PRE_START => h.PreStart
    | HookPoint.POST_START => h.PostStart
    | HookPoint.PRE_CONFIG_CHANGE => h.PreConfigChange
    | HookPoint.POST_CONFIG_CHANGE => h.PostConfigChange
    | HookPoint.PRE_REPLICATE => h.PreReplicate
    | HookPoint.POST_REPLICATE => h.PostReplicate
    | HookPoint.PRE_UPDATE => h.PreUpdate
    | HookPoint.POST_UPDATE => h.PostUpdate
    | HookPoint.PRE_SHUTDOWN => h.PreShutdown
    | HookPoint.POST_SHUTDOWN => h.PostShutdown

/-- `Consensus::GetLastOpId(type)`: dispatch on the kind; RECEIVED and
COMMITTED route to their respective collaborator queries; the UNKNOWN case
breaks out of the switch and fails with
`STATUS(InvalidArgument, "Unsupported OpIdType", OpIdType_Name(type))`. -/
def Consensus.GetLastOpId (c : Consensus) (type : OpIdType) :
    Except Status OpId :=
  match type with
  | OpIdType.RECEIVED_OPID => Except.ok c.GetLastReceivedOpId
  | OpIdType.COMMITTED_OPID => Except.ok c.GetLastCommittedOpId
  | OpIdType.UNKNOWN_OPID_TYPE =>
      Except.error (Status.error StatusCode.InvalidArgument
        ("Unsupported OpIdType: "
          ++ OpIdType_Name OpIdType.UNKNOWN_OPID_TYPE))

/-- Predicate: the string `s` occurs verbatim inside `msg`. -/
def strMentions (msg s : String) : Prop :=
  ∃ a b : String, msg = a ++ s ++ b

/-- Helper: the left part of a concatenation is mentioned. -/
theorem strMentions_of_eq (msg a s b : String) (h : msg = a ++ s ++ b) :
    strMentions msg s :=
  ⟨a, b, h⟩

/-- Helper: a concatenation whose left part has non-empty data is not the
empty string. -/
theorem append3_ne_empty (a s b : String) (h : a.data ≠ []) :
    a ++ s ++ b ≠ "" := by
  intro he
  apply h
  have hd : (a ++ s ++ b).data = ([] : List Char) := by rw [he]
  simp only [String.data_append] at hd
  exact (List.append_eq_nil.mp (List.append_eq_nil.mp hd).1).1

/-- Claim C2: for every round, if it is Unbound (`bound_term` is the unbound
sentinel) then `CheckBoundTerm` succeeds for every term; if it is bound to a
term T then `CheckBoundTerm T` succeeds and `CheckBoundTerm t` for any t ≠ T
fails with an `Aborted` error whose message mentions both T and t. -/
theorem checkBoundTerm_spec (r : ConsensusRound) (t : Int) :
    (r.bound_term = ConsensusRound.kUnboundTerm →
      r.CheckBoundTerm t = Status.ok) ∧
    (r.bound_term ≠ ConsensusRound.kUnboundTerm →
      r.CheckBoundTerm r.bound_term = Status.ok ∧
      (t ≠ r.bound_term →
        ∃ msg, r.CheckBoundTerm t = Status.error StatusCode.Aborted msg ∧
          strMentions msg (toString r.bound_term) ∧
          strMentions msg (toString t))) := by
  refine ⟨fun h => ?_, fun h => ⟨?_, fun hne => ?_⟩⟩
  · simp [ConsensusRound.CheckBoundTerm, h]
  · simp [ConsensusRound.CheckBoundTerm]
  · refine ⟨"Operation submitted in term " ++ toString r.bound_term
      ++ " cannot be replicated in term " ++ toString t, ?_, ?_, ?_⟩
    · have hbt : r.bound_term ≠ t := Ne.symm hne
      simp [ConsensusRound.CheckBoundTerm, h, hbt]
    · exact strMentions_of_eq _ "Operation submitted in term "
        (toString r.bound_term)
        (" cannot be replicated in term " ++ toString t)
        (String.append_assoc _ _ _)
    · exact strMentions_of_eq _
        ("Operation submitted in term " ++ toString r.bound_term
          ++ " cannot be replicated in term ")
        (toString t) "" (String.append_empty _).symm

/-- Witness for C2 at concrete inputs: an unbound round passes term 7; a
round bound to term 5 passes term 5 and is aborted at term 6 with a message
mentioning 5 and 6. -/
theorem checkBoundTerm_spec_witness :
    (ConsensusRound.mk ConsensusRound.kUnboundTerm none false).CheckBoundTerm
        7 = Status.ok ∧
    (ConsensusRound.mk 5 none false).CheckBoundTerm 5 = Status.ok ∧
    ∃ msg, (ConsensusRound.mk 5 none false).CheckBoundTerm 6 =
        Status.error StatusCode.Aborted msg ∧
      strMentions msg (toString (5 : Int)) ∧
      strMentions msg (toString (6 : Int)) :=
  ⟨(checkBoundTerm_spec (ConsensusRound.mk ConsensusRound.kUnboundTerm
      none false) 7).1 rfl,
   ((checkBoundTerm_spec (ConsensusRound.mk 5 none false) 6).2
      (by decide)).1,
   ((checkBoundTerm_spec (ConsensusRound.mk 5 none false) 6).2
      (by decide)).2 (by decide)⟩

/-- Claim C1 as stated is false on the code: `NotifyReplicationFinished`
carries no "already completed" guard, so on a round with a registered
callback two calls deliver the callback twice.  Concrete input: a round
bound to term 5 with a callback, notified twice with (OK, 6, []). -/
theorem notify_at_most_once_refuted :
    ((ConsensusRound.mk 5 (some (ReplicateMsg.mk 0)) true).notifyMany
        [CallbackCall.mk Status.ok 6 [], CallbackCall.mk Status.ok 6 []]
      ).length = 2 ∧
    ¬ ((ConsensusRound.mk 5 (some (ReplicateMsg.mk 0)) true).notifyMany
        [CallbackCall.mk Status.ok 6 [], CallbackCall.mk Status.ok 6 []]
      ).length ≤ 1 := by
  decide

/-- Claim C1, amended: `NotifyReplicationFinished` fires the registered
callback exactly once per call (and never when no callback is registered);
the round object keeps no completion flag, so n calls fire the callback n
times — at-most-once in total holds only when the caller notifies at most
once. -/
theorem notify_fires_once_per_call (r : ConsensusRound)
    (calls : List CallbackCall) :
    (r.notifyMany calls).length =
      (if r.has_replicated_cb then calls.length else 0) := by
  induction calls with
  | nil => cases r.has_replicated_cb <;> simp [ConsensusRound.notifyMany]
  | cons c rest ih =>
      cases hcb : r.has_replicated_cb <;>
        simp_all [ConsensusRound.notifyMany,
          ConsensusRound.NotifyReplicationFinished]

/-- Claim C4: with no registered callback `NotifyReplicationFinished` is a
silent no-op (no delivery); with a registered callback the callback receives
exactly the status, the leader-term argument of the call (not the round's
`bound_term`) and the applied-op-ids argument, unmodified. -/
theorem notify_args_spec (r : ConsensusRound) (status : Status)
    (leader_term : Int) (ids : List OpId) :
    (r.has_replicated_cb = false →
      r.NotifyReplicationFinished status leader_term ids = []) ∧
    (r.has_replicated_cb = true →
      r.NotifyReplicationFinished status leader_term ids =
        [CallbackCall.mk status leader_term ids]) := by
  refine ⟨fun h => ?_, fun h => ?_⟩ <;>
    simp [ConsensusRound.NotifyReplicationFinished, h]

/-- Witness for C4 at concrete inputs: a callback-less round is a no-op; a
round bound to term 5 with a callback, notified with leader term 6, delivers
exactly (OK, 6, []) — the argument 6, not the bound term 5. -/
theorem notify_args_spec_witness :
    (ConsensusRound.mk 5 (some (ReplicateMsg.mk 0))
        false).NotifyReplicationFinished Status.ok 6 [] = [] ∧
    (ConsensusRound.mk 5 (some (ReplicateMsg.mk 0))
        true).NotifyReplicationFinished Status.ok 6 [] =
      [CallbackCall.mk Status.ok 6 []] :=
  ⟨(notify_args_spec (ConsensusRound.mk 5 (some (ReplicateMsg.mk 0)) false)
      Status.ok 6 []).1 rfl,
   (notify_args_spec (ConsensusRound.mk 5 (some (ReplicateMsg.mk 0)) true)
      Status.ok 6 []).2 rfl⟩

/-- Claim C3: `CreateStatus` is total and exhaustive on the five
`LeaderStatus` values: LEADER_AND_READY yields OK; NOT_LEADER yields
IllegalState; LEADER_BUT_NO_OP_NOT_COMMITTED yields LeaderNotReadyToServe
with its fixed message; LEADER_BUT_OLD_LEADER_MAY_HAVE_LEASE yields
LeaderNotReadyToServe with a message embedding the exact
`remaining_old_leader_lease` value; LEADER_BUT_NO_MAJORITY_REPLICATED_LEASE
yields LeaderHasNoLease with its fixed message; every non-ready status yields
an error with a non-empty message.  Exhaustiveness over the closed
enumeration is the totality of the match (the source's fatal fallthrough is
unreachable). -/
theorem createStatus_spec (s : LeaderState) :
    (s.status = LeaderStatus.LEADER_AND_READY → s.CreateStatus = Status.ok) ∧
    (s.status = LeaderStatus.NOT_LEADER →
      s.CreateStatus = Status.error StatusCode.IllegalState
        "Not the leader") ∧
    (s.status = LeaderStatus.LEADER_BUT_NO_OP_NOT_COMMITTED →
      s.CreateStatus = Status.error StatusCode.LeaderNotReadyToServe
        "Leader not yet replicated NoOp to be ready to serve requests") ∧
    (s.status = LeaderStatus.LEADER_BUT_OLD_LEADER_MAY_HAVE_LEASE →
      ∃ msg, s.CreateStatus =
          Status.error StatusCode.LeaderNotReadyToServe msg ∧
        strMentions msg (toString s.remaining_old_leader_lease)) ∧
    (s.status = LeaderStatus.LEADER_BUT_NO_MAJORITY_REPLICATED_LEASE →
      s.CreateStatus = Status.error StatusCode.LeaderHasNoLease
        "This leader has not yet acquired a lease.") ∧
    (s.status ≠ LeaderStatus.LEADER_AND_READY →
      ∃ code msg, s.CreateStatus = Status.error code msg ∧ msg ≠ "") := by
  refine ⟨?_, ?_, ?_, ?_, ?_, ?_⟩ <;> intro h
  · simp [LeaderState.CreateStatus, h]
  · simp [LeaderState.CreateStatus, h]
  · simp [LeaderState.CreateStatus, h]
  · refine ⟨"Previous leader's lease might still be active ("
        ++ toString s.remaining_old_leader_lease ++ " remaining).", ?_, ?_⟩
    · simp [LeaderState.CreateStatus, h]
    · exact strMentions_of_eq _
        "Previous leader's lease might still be active ("
        (toString s.remaining_old_leader_lease) " remaining)." rfl
  · simp [LeaderState.CreateStatus, h]
  · cases hs : s.status with
    | NOT_LEADER =>
        exact ⟨StatusCode.IllegalState, "Not the leader",
          by simp [LeaderState.CreateStatus, hs], by decide⟩
    | LEADER_BUT_NO_OP_NOT_COMMITTED =>
        exact ⟨StatusCode.LeaderNotReadyToServe,
          "Leader not yet replicated NoOp to be ready to serve requests",
          by simp [LeaderState.CreateStatus, hs], by decide⟩
    | LEADER_BUT_OLD_LEADER_MAY_HAVE_LEASE =>
        exact ⟨StatusCode.LeaderNotReadyToServe,
          "Previous leader's lease might still be active ("
            ++ toString s.remaining_old_leader_lease ++ " remaining).",
          by simp [LeaderState.CreateStatus, hs],
          append3_ne_empty _ _ _ (by decide)⟩
    | LEADER_BUT_NO_MAJORITY_REPLICATED_LEASE =>
        exact ⟨StatusCode.LeaderHasNoLease,
          "This leader has not yet acquired a lease.",
          by simp [LeaderState.CreateStatus, hs], by decide⟩
    | LEADER_AND_READY => exact absurd hs h

/-- Witness for C3 at concrete states: the ready state succeeds; the
not-leader state fails IllegalState; the old-lease state with 3 remaining
fails LeaderNotReadyToServe mentioning 3; the no-majority-lease state fails
with a non-empty message. -/
theorem createStatus_spec_witness :
    (LeaderState.mk LeaderStatus.LEADER_AND_READY 7 0).CreateStatus =
      Status.ok ∧
    (LeaderState.mk LeaderStatus.NOT_LEADER 0 0).CreateStatus =
      Status.error StatusCode.IllegalState "Not the leader" ∧
    (∃ msg, (LeaderState.mk LeaderStatus.LEADER_BUT_OLD_LEADER_MAY_HAVE_LEASE
          0 3).CreateStatus =
        Status.error StatusCode.LeaderNotReadyToServe msg ∧
      strMentions msg (toString (3 : Int))) ∧
    (∃ code msg,
      (LeaderState.mk LeaderStatus.LEADER_BUT_NO_MAJORITY_REPLICATED_LEASE
          0 0).CreateStatus = Status.error code msg ∧ msg ≠ "") :=
  ⟨(createStatus_spec (LeaderState.mk LeaderStatus.LEADER_AND_READY 7 0)).1
      rfl,
   (createStatus_spec
      (LeaderState.mk LeaderStatus.NOT_LEADER 0 0)).2.1 rfl,
   (createStatus_spec
      (LeaderState.mk LeaderStatus.LEADER_BUT_OLD_LEADER_MAY_HAVE_LEASE
        0 3)).2.2.2.1 rfl,
   (createStatus_spec
      (LeaderState.mk LeaderStatus.LEADER_BUT_NO_MAJORITY_REPLICATED_LEASE
        0 0)).2.2.2.2.2 (by decide)⟩

/-- Claim C5: `GetLastOpId` dispatches exactly by kind — RECEIVED routes to
the last-received collaborator query, COMMITTED to the last-committed one
(never to each other's), and the UNKNOWN kind fails with an InvalidArgument
error whose message names the offending kind. -/
theorem getLastOpId_dispatch (c : Consensus) :
    c.GetLastOpId OpIdType.RECEIVED_OPID =
      Except.ok c.GetLastReceivedOpId ∧
    c.GetLastOpId OpIdType.COMMITTED_OPID =
      Except.ok c.GetLastCommittedOpId ∧
    ∃ msg, c.GetLastOpId OpIdType.UNKNOWN_OPID_TYPE =
        Except.error (Status.error StatusCode.InvalidArgument msg) ∧
      strMentions msg (OpIdType_Name OpIdType.UNKNOWN_OPID_TYPE) :=
  ⟨rfl, rfl,
   ⟨"Unsupported OpIdType: " ++ OpIdType_Name OpIdType.UNKNOWN_OPID_TYPE,
    rfl,
    strMentions_of_eq _ "Unsupported OpIdType: "
      (OpIdType_Name OpIdType.UNKNOWN_OPID_TYPE) ""
      (String.append_empty _).symm⟩⟩

/-- Claim C6: with no hook object installed, `ExecuteHook` returns success
for every defined lifecycle point (and, the model having no other output, has
no observable side effect); with a hook object installed it returns the
result of exactly the one callback matching the point, so a callback failure
propagates unchanged to the caller. -/
theorem executeHook_dispatch (c : Consensus) (h : ConsensusFaultHooks) :
    (c.fault_hooks = none →
      ∀ p : HookPoint, c.ExecuteHook p = Status.ok) ∧
    (c.fault_hooks = some h →
      c.ExecuteHook HookPoint.PRE_START = h.PreStart ∧
      c.ExecuteHook HookPoint.POST_START = h.PostStart ∧
      c.ExecuteHook HookPoint.PRE_CONFIG_CHANGE = h.PreConfigChange ∧
      c.ExecuteHook HookPoint.POST_CONFIG_CHANGE = h.PostConfigChange ∧
      c.ExecuteHook HookPoint.PRE_REPLICATE = h.PreReplicate ∧
      c.ExecuteHook HookPoint.POST_REPLICATE = h.PostReplicate ∧
      c.ExecuteHook HookPoint.PRE_UPDATE = h.PreUpdate ∧
      c.ExecuteHook HookPoint.POST_UPDATE = h.PostUpdate ∧
      c.ExecuteHook HookPoint.PRE_SHUTDOWN = h.PreShutdown ∧
      c.ExecuteHook HookPoint.POST_SHUTDOWN = h.PostShutdown) := by
  constructor
  · intro hn p
    cases p <;> simp [Consensus.ExecuteHook, hn]
  · intro hs
    simp [Consensus.ExecuteHook, hs]

/-- Witness for C6 at concrete inputs: with no hooks installed,
`ExecuteHook PRE_START` is OK; with a hook object whose PreReplicate fails
with Aborted, `ExecuteHook PRE_REPLICATE` returns exactly that failure. -/
theorem executeHook_dispatch_witness :
    (Consensus.mk (OpId.mk 0 0) (OpId.mk 0 0)
        (fun _ => LeaderState.mk LeaderStatus.NOT_LEADER 0 0)
        none).ExecuteHook HookPoint.PRE_START = Status.ok ∧
    (Consensus.mk (OpId.mk 0 0) (OpId.mk 0 0)
        (fun _ => LeaderState.mk LeaderStatus.NOT_LEADER 0 0)
        (some (ConsensusFaultHooks.mk Status.ok Status.ok Status.ok
          Status.ok (Status.error StatusCode.Aborted "injected fault")
          Status.ok Status.ok Status.ok Status.ok
          Status.ok))).ExecuteHook HookPoint.PRE_REPLICATE =
      Status.error StatusCode.Aborted "injected fault" :=
  ⟨(executeHook_dispatch (Consensus.mk (OpId.mk 0 0) (OpId.mk 0 0)
      (fun _ => LeaderState.mk LeaderStatus.NOT_LEADER 0 0) none)
      (ConsensusFaultHooks.mk Status.ok Status.ok Status.ok Status.ok
        Status.ok Status.ok Status.ok Status.ok Status.ok
        Status.ok)).1 rfl HookPoint.PRE_START,
   ((executeHook_dispatch (Consensus.mk (OpId.mk 0 0) (OpId.mk 0 0)
      (fun _ => LeaderState.mk LeaderStatus.NOT_LEADER 0 0)
      (some (ConsensusFaultHooks.mk Status.ok Status.ok Status.ok
        Status.ok (Status.error StatusCode.Aborted "injected fault")
        Status.ok Status.ok Status.ok Status.ok Status.ok)))
      (ConsensusFaultHooks.mk Status.ok Status.ok Status.ok
        Status.ok (Status.error StatusCode.Aborted "injected fault")
        Status.ok Status.ok Status.ok Status.ok
        Status.ok)).2 rfl).2.2.2.2.1⟩

/-- Claim C7: `MakeNotReadyLeader` forces the term to the unknown-term
sentinel for every input state and status, and for an implementation whose
`GetLeaderState` builds every non-ready state through `MakeNotReadyLeader`,
`LeaderTerm()` returns the sentinel whenever the node is not a ready
leader. -/
theorem makeNotReadyLeader_term_unknown (self : LeaderState)
    (st : LeaderStatus) (c : Consensus)
    (hvia : (c.GetLeaderState false).status ≠
        LeaderStatus.LEADER_AND_READY →
      ∃ s0 : LeaderState, c.GetLeaderState false =
        s0.MakeNotReadyLeader (c.GetLeaderState false).status) :
    (self.MakeNotReadyLeader st).term = OpId.kUnknownTerm ∧
    ((c.GetLeaderState false).status ≠ LeaderStatus.LEADER_AND_READY →
      c.LeaderTerm = OpId.kUnknownTerm) := by
  refine ⟨rfl, fun hnr => ?_⟩
  obtain ⟨s0, hs⟩ := hvia hnr
  unfold Consensus.LeaderTerm
  rw [hs]
  rfl

/-- Witness for C7 at a concrete implementation: `GetLeaderState` always
returns a state built by `MakeNotReadyLeader NOT_LEADER`; `LeaderTerm` is
the unknown-term sentinel. -/
theorem makeNotReadyLeader_term_unknown_witness :
    ((LeaderState.mk LeaderStatus.LEADER_AND_READY 7 0).MakeNotReadyLeader
        LeaderStatus.NOT_LEADER).term = OpId.kUnknownTerm ∧
    (Consensus.mk (OpId.mk 0 0) (OpId.mk 0 0)
        (fun _ => (LeaderState.mk LeaderStatus.LEADER_AND_READY 7
          0).MakeNotReadyLeader LeaderStatus.NOT_LEADER)
        none).LeaderTerm = OpId.kUnknownTerm :=
  ⟨(makeNotReadyLeader_term_unknown
      (LeaderState.mk LeaderStatus.LEADER_AND_READY 7 0)
      LeaderStatus.NOT_LEADER
      (Consensus.mk (OpId.mk 0 0) (OpId.mk 0 0)
        (fun _ => (LeaderState.mk LeaderStatus.LEADER_AND_READY 7
          0).MakeNotReadyLeader LeaderStatus.NOT_LEADER) none)
      (fun _ => ⟨LeaderState.mk LeaderStatus.LEADER_AND_READY 7 0,
        rfl⟩)).1,
   (makeNotReadyLeader_term_unknown
      (LeaderState.mk LeaderStatus.LEADER_AND_READY 7 0)
      LeaderStatus.NOT_LEADER
      (Consensus.mk (OpId.mk 0 0) (OpId.mk 0 0)
        (fun _ => (LeaderState.mk LeaderStatus.LEADER_AND_READY 7
          0).MakeNotReadyLeader LeaderStatus.NOT_LEADER) none)
      (fun _ => ⟨LeaderState.mk LeaderStatus.LEADER_AND_READY 7 0,
        rfl⟩)).2 (by decide)⟩

/-- Claim C8 as stated is false on the code: the null-payload `DCHECK` sits
only in the constructor without a callback; `NewRound` uses the constructor
taking a callback, which performs no check, so a null payload passed to
`NewRound` is accepted without any debug-build precondition failure.
Concrete input: `NewRound(nullptr, cb)`. -/
theorem newRound_null_payload_not_checked :
    (Consensus.mk (OpId.mk 0 0) (OpId.mk 0 0)
        (fun _ => LeaderState.mk LeaderStatus.NOT_LEADER 0 0)
        none).NewRound none true =
      Except.ok (ConsensusRound.mk ConsensusRound.kUnboundTerm none true) ∧
    ∀ e, (Consensus.mk (OpId.mk 0 0) (OpId.mk 0 0)
        (fun _ => LeaderState.mk LeaderStatus.NOT_LEADER 0 0)
        none).NewRound none true ≠ Except.error e := by
  exact ⟨rfl, fun e h => nomatch h⟩

/-- Claim C8, amended: the null-payload precondition is checked (fatal in
debug builds) only by the callback-less round constructor; the
callback-taking constructor, and therefore `NewRound`, performs no null
check and accepts any payload. -/
theorem payload_null_check_spec (c : Consensus) (m : ReplicateMsg)
    (msg : Option ReplicateMsg) (cb : Bool) :
    (∃ e, ConsensusRound.ctorNoCallback none = Except.error e) ∧
    (ConsensusRound.ctorNoCallback (some m)).isOk = true ∧
    (ConsensusRound.ctorWithCallback msg cb).isOk = true ∧
    c.NewRound msg cb = ConsensusRound.ctorWithCallback msg cb :=
  ⟨⟨"DCHECK failed: replicate_msg_.get() non-null", rfl⟩, rfl, rfl, rfl⟩

/-- Claim C9: a freshly constructed `ConsensusBootstrapInfo` has both its
last-received and last-committed OpId fields equal to the Minimum OpId
sentinel. -/
theorem bootstrapInfo_init_minimum :
    ConsensusBootstrapInfo.init.last_id = MinimumOpId ∧
    ConsensusBootstrapInfo.init.last_committed_id = MinimumOpId :=
  ⟨rfl, rfl⟩

/-- Claim C10: `SetFaultHooks` followed by `GetFaultHooks` is a round trip,
and a second `SetFaultHooks` fully replaces the first (last writer wins,
exactly one installed hook pointer at a time). -/
theorem faultHooks_roundtrip (c : Consensus)
    (h h2 : Option ConsensusFaultHooks) :
    (c.SetFaultHooks h).GetFaultHooks = h ∧
    (c.SetFaultHooks h).SetFaultHooks h2 = c.SetFaultHooks h2 ∧
    ((c.SetFaultHooks h).SetFaultHooks h2).GetFaultHooks = h2 :=
  ⟨rfl, rfl, rfl⟩
